import Mathlib

/-!
Shallow embedding of the bulk spreadsheet import/export pipeline of the
campus-id-pro repository.

The importer lives in src/components/admin/ExcelImport.tsx
(handleFileSelect, validateSRN, importStudents); the exporters are the
exportToExcel functions of the school dashboard and of the admin dashboard.
The backing store (the supabase students and import_logs tables) is modelled
as explicit lists threaded through the run; the remote outcomes the code
observes (whether a uniqueness SELECT errors, whether an INSERT is rejected,
what the JS Date parser returns, the current timestamp) are an explicit
environment.
-/

/-- A raw spreadsheet cell as delivered by sheet_to_json: a string or a number. -/
inductive Cell where
  | str (s : String)
  | num (n : Int)
deriving DecidableEq, Repr

/-- JS template interpolation / toString() of a cell value. -/
def Cell.toStr : Cell → String
  | .str s => s
  | .num n => toString n

/-- JS truthiness of a defined cell value: the empty string and 0 are falsy. -/
def Cell.truthy : Cell → Bool
  | .str s => s != ""
  | .num n => n != 0

/-- One parsed data row (one sheet_to_json object), restricted to the five
columns the importer ever reads.  `none` models an absent key (sheet_to_json
omits keys for empty cells); any extra columns of a file are never read by
the importer and are not modelled. -/
structure Row where
  studentName : Option Cell
  srnNo : Option Cell
  classLabel : Option Cell
  sectionLabel : Option Cell
  dateOfBirth : Option Cell
deriving DecidableEq, Repr

/-- Interpolation of row[col]: an absent key prints as the empty string. -/
def cellStr : Option Cell → String
  | none => ""
  | some c => c.toStr

/-- JS truthiness of row[col]: an absent key is undefined, hence falsy. -/
def present : Option Cell → Bool
  | none => false
  | some c => c.truthy

/-- The guard of line 140 of ExcelImport.tsx: every one of the five required
fields of the row is truthy. -/
def requiredPresent (r : Row) : Bool :=
  present r.studentName && present r.srnNo && present r.classLabel &&
    present r.sectionLabel && present r.dateOfBirth

/-- The required column labels, in the order of the requiredColumns array. -/
def REQUIRED : List String :=
  ["Student Name", "SRN No", "Class", "Section", "Date of Birth"]

/-- Key membership (the JS `col in firstRow` test) for the modelled columns. -/
def Row.hasColumn (r : Row) : String → Bool
  | "Student Name" => r.studentName.isSome
  | "SRN No" => r.srnNo.isSome
  | "Class" => r.classLabel.isSome
  | "Section" => r.sectionLabel.isSome
  | "Date of Birth" => r.dateOfBirth.isSome
  | _ => false

/-- A persisted students-table record with the columns the importer writes
(photo_url is written by a separate flow; imported rows leave it absent). -/
structure Student where
  school_id : String
  student_name : String
  srn_no : String
  class_label : String
  section_label : String
  date_of_birth : String
  registration_date : String
  photo_url : Option String := none
deriving DecidableEq, Repr

/-- A persisted import_logs record (the summary log entry): errors is null
when the error list is empty, else the newline-joined error strings. -/
structure LogEntry where
  user_id : String
  filename : String
  total_records : Nat
  successful_records : Nat
  failed_records : Nat
  errors : Option String
deriving DecidableEq, Repr

/-- The external world observed by one import run: per-row backend outcomes,
indexed by the 0-based row index (whether the srn-uniqueness SELECT of that
row errors, and whether the INSERT of that row fails for a reason other than
the students table's unique constraint — the constraint itself is enforced
structurally, see insertStudent), together with the JS date parser
(new Date(cell) followed by toISOString().split('T')[0], none when the date
is NaN) and the current timestamp used for registration_date. -/
structure Env where
  lookupError : Nat → Bool
  insertError : Nat → Option String
  parseDate : Cell → Option String
  now : String

/-- The backend error message surfaced through insertError.message when an
INSERT violates the students table's UNIQUE(school_id, srn_no) constraint of
the base migration (the exact wording models the backend's report; no claim
depends on it beyond being distinct from the importer's own messages). -/
def UNIQUE_VIOLATION_MSG : String :=
  "duplicate key value violates unique constraint \"students_school_id_srn_no_key\""

/-- The students-table INSERT as the backend performs it.  The base
migration declares UNIQUE(school_id, srn_no) on public.students, so an
insert that would create a second record with the same srn_no under the same
school is rejected with the constraint-violation message; otherwise the
outcome is whatever other failure the environment injects (none = the row is
stored). -/
def insertStudent (store : List Student) (s : Student)
    (extErr : Option String) : Option String :=
  if store.any fun t => t.srn_no == s.srn_no && t.school_id == s.school_id then
    some UNIQUE_VIOLATION_MSG
  else extErr

/-- JS String.prototype.trim: strip whitespace from both ends of the string. -/
def jsTrim (s : String) : String :=
  ⟨((s.data.dropWhile Char.isWhitespace).reverse.dropWhile Char.isWhitespace).reverse⟩

/-- ExcelImport.validateSRN: SELECT id FROM students WHERE srn_no = srnNo AND
school_id = schoolId, maybeSingle.  On a query error it returns false;
otherwise it returns true exactly when no matching record exists.  (When two
or more records match, maybeSingle reports an error, and the function again
returns false, which the any-test also gives.) -/
def validateSRN (store : List Student) (lookupErr : Bool)
    (srnNo schoolId : String) : Bool :=
  if lookupErr then false
  else !(store.any fun s => s.srn_no == srnNo && s.school_id == schoolId)

/-- The mutable state of the import loop: the students table plus the local
tallies successfulRecords / failedRecords and the errors array. -/
structure ImportState where
  store : List Student
  success : Nat
  failed : Nat
  errors : List String
deriving DecidableEq, Repr

/-- The body of the for-loop of importStudents for the row of 0-based index i:
required-fields check, srn-uniqueness check, date parse, then the insert
(which the backend may reject, in particular for a unique-constraint
violation).  Exactly one branch runs; each failing branch appends one error
and increments failedRecords, the last branch increments successfulRecords
and appends the new record (with every text field passed through
toString().trim(), while the uniqueness check above used the raw cell
value). -/
def processRow (school : String) (env : Env) (i : Nat)
    (st : ImportState) (row : Row) : ImportState :=
  if !(requiredPresent row) then
    { st with failed := st.failed + 1,
              errors := st.errors ++
                ["Row " ++ toString (i+1) ++ ": Missing required fields"] }
  else if !(validateSRN st.store (env.lookupError i) (cellStr row.srnNo) school) then
    { st with failed := st.failed + 1,
              errors := st.errors ++
                ["Row " ++ toString (i+1) ++ ": SRN " ++ cellStr row.srnNo ++
                  " already exists"] }
  else
    match env.parseDate (row.dateOfBirth.getD (Cell.str "")) with
    | none =>
      { st with failed := st.failed + 1,
                errors := st.errors ++
                  ["Row " ++ toString (i+1) ++
                    ": Invalid date format for Date of Birth"] }
    | some dob =>
      let newStudent : Student :=
        { school_id := school,
          student_name := jsTrim (cellStr row.studentName),
          srn_no := jsTrim (cellStr row.srnNo),
          class_label := jsTrim (cellStr row.classLabel),
          section_label := jsTrim (cellStr row.sectionLabel),
          date_of_birth := dob,
          registration_date := env.now }
      match insertStudent st.store newStudent (env.insertError i) with
      | some m =>
        { st with failed := st.failed + 1,
                  errors := st.errors ++
                    ["Row " ++ toString (i+1) ++ ": " ++ m] }
      | none =>
        { st with success := st.success + 1,
                  store := st.store ++ [newStudent] }

/-- The for-loop of importStudents, i the 0-based index of the first row of
the remaining list. -/
def importLoop (school : String) (env : Env) :
    Nat → ImportState → List Row → ImportState
  | _, st, [] => st
  | i, st, r :: rs => importLoop school env (i+1) (processRow school env i st r) rs

/-- One whole pass of the loop over a file, starting from a clean tally. -/
def runLoop (school : String) (env : Env) (store : List Student)
    (rows : List Row) : ImportState :=
  importLoop school env 0 ⟨store, 0, 0, []⟩ rows

/-- The Import Outcome displayed to the caller (setResults payload). -/
structure ImportResult where
  total : Nat
  success : Nat
  failed : Nat
  errors : List String
deriving DecidableEq, Repr

/-- The store, the log table and the outcome after a completed run. -/
structure RunResult where
  store : List Student
  logs : List LogEntry
  results : ImportResult
deriving DecidableEq, Repr

/-- The filename recorded in the log: files[0].name with the JS fallback
`|| "unknown"` for an absent or empty name. -/
def resolveFilename : Option String → String
  | some n => if n == "" then "unknown" else n
  | none => "unknown"

/-- ExcelImport.importStudents: the guards (a school must be selected and a
file loaded, otherwise the run never starts and nothing happens), then the
row loop, then, when auth.getUser returned a user, exactly one import_logs
insert, then the outcome.  none models the early returns. -/
def importStudents (school : String) (env : Env) (user : Option String)
    (filename : Option String) (store : List Student) (logs : List LogEntry)
    (importData : List Row) : Option RunResult :=
  if school == "" then none
  else if importData.isEmpty then none
  else
    let st := importLoop school env 0 ⟨store, 0, 0, []⟩ importData
    let logs' :=
      match user with
      | some uid =>
        logs ++ [{ user_id := uid,
                   filename := resolveFilename filename,
                   total_records := importData.length,
                   successful_records := st.success,
                   failed_records := st.failed,
                   errors := if st.errors.isEmpty then none
                             else some (String.intercalate "\n" st.errors) }]
      | none => logs
    some ⟨st.store, logs', ⟨importData.length, st.success, st.failed, st.errors⟩⟩

/-- The two ways handleFileSelect rejects a parsed sheet: no data rows, or
required columns absent from the first row object. -/
inductive LoadError where
  | emptyFile
  | missingColumns (cols : List String)
deriving DecidableEq, Repr

/-- The missing-columns computation of handleFileSelect:
requiredColumns.filter(col => !(col in firstRow)). -/
def missingColumnsOf (r : Row) : List String :=
  REQUIRED.filter fun c => !(r.hasColumn c)

/-- ExcelImport.handleFileSelect after sheet_to_json: reject an empty sheet,
reject when the first row object lacks a required column, otherwise load the
rows unchanged. -/
def loadFile (jsonData : List Row) : Except LoadError (List Row) :=
  match jsonData with
  | [] => .error .emptyFile
  | first :: _ =>
    let missing := missingColumnsOf first
    if missing.isEmpty then .ok jsonData
    else .error (.missingColumns missing)

/-- The whole pipeline from a parsed sheet: a load failure means the import
loop never starts, so the students table and the log table are untouched and
no outcome is produced. -/
def processFile (school : String) (env : Env) (user : Option String)
    (filename : Option String) (store : List Student) (logs : List LogEntry)
    (jsonData : List Row) :
    (List Student × List LogEntry) × Option ImportResult :=
  match loadFile jsonData with
  | .error _ => ((store, logs), none)
  | .ok rows =>
    match importStudents school env user filename store logs rows with
    | none => ((store, logs), none)
    | some out => ((out.store, out.logs), some out.results)

/-- XLSX.utils.json_to_sheet on a list of fixed-key objects, as a grid of
strings: the header row is derived from the keys of the rows, so an empty
input yields an empty sheet with no header row at all; a nonempty input
yields the first row's keys as header followed by one line per object. -/
def json_to_sheet (rows : List (List (String × String))) : List (List String) :=
  match rows with
  | [] => []
  | first :: _ => (first.map Prod.fst) :: rows.map fun r => r.map Prod.snd

/-- A workbook: book_new / book_append_sheet collapsed to the sheet list
(name and cell grid) plus the writeFile filename. -/
structure Workbook where
  sheets : List (String × List (List String))
  filename : String
deriving DecidableEq, Repr

/-- The projection of one student performed by the school dashboard's
exportToExcel, with the school and block names of the user profile and the
toLocaleDateString rendering supplied from outside. -/
def exportRecordSchool (schoolName blockName : String)
    (fmtDate : String → String) (s : Student) : List (String × String) :=
  [("Student Name", s.student_name),
   ("SRN No", s.srn_no),
   ("Class", s.class_label),
   ("Section", s.section_label),
   ("Date of Birth", s.date_of_birth),
   ("School", schoolName),
   ("Block", blockName),
   ("Registration Date", fmtDate s.registration_date),
   ("Photo Filename", match s.photo_url with
                      | some _ => s.srn_no ++ ".jpg"
                      | none => "No photo")]

/-- The school dashboard's exportToExcel: project every student, build one
sheet named "Students", write the dated file. -/
def exportToExcel (schoolName blockName : String) (fmtDate : String → String)
    (today : String) (students : List Student) : Workbook :=
  { sheets := [("Students",
      json_to_sheet (students.map (exportRecordSchool schoolName blockName fmtDate)))],
    filename := schoolName ++ "_students_" ++ today ++ ".xlsx" }

/-- The projection of one student performed by the admin dashboard's
exportToExcel; the names joined from the school relation are supplied as
per-student functions. -/
def exportRecordAdmin (schoolOf blockOf districtOf stateOf : Student → String)
    (fmtDate : String → String) (s : Student) : List (String × String) :=
  [("Student Name", s.student_name),
   ("SRN No", s.srn_no),
   ("Class", s.class_label),
   ("Section", s.section_label),
   ("Date of Birth", s.date_of_birth),
   ("School", schoolOf s),
   ("Block", blockOf s),
   ("District", districtOf s),
   ("State", stateOf s),
   ("Registration Date", fmtDate s.registration_date)]

/-- The admin dashboard's exportToExcel. -/
def exportToExcelAdmin (schoolOf blockOf districtOf stateOf : Student → String)
    (fmtDate : String → String) (today : String) (students : List Student) :
    Workbook :=
  { sheets := [("Students",
      json_to_sheet
        (students.map (exportRecordAdmin schoolOf blockOf districtOf stateOf fmtDate)))],
    filename := "students_export_" ++ today ++ ".xlsx" }

/-- The five template columns of an exported record, as the row object the
importer would receive when the exported sheet is re-imported (the extra
export columns are never read by the importer). -/
def studentToRow (s : Student) : Row :=
  { studentName := some (.str s.student_name),
    srnNo := some (.str s.srn_no),
    classLabel := some (.str s.class_label),
    sectionLabel := some (.str s.section_label),
    dateOfBirth := some (.str s.date_of_birth) }

/-- The re-imported row set of an exported collection. -/
def exportRows (es : List Student) : List Row := es.map studentToRow

/-- Uniqueness of srn_no within each owning school, over the whole table. -/
def uniqueStore : List Student → Bool
  | [] => true
  | s :: rest =>
    !(rest.any fun t => t.srn_no == s.srn_no && t.school_id == s.school_id) &&
      uniqueStore rest

/-- A concrete benign environment: no lookup errors and no insert failures
beyond the unique-constraint rejections insertStudent itself enforces, every
date accepted verbatim. -/
def envOK : Env :=
  { lookupError := fun _ => false,
    insertError := fun _ => none,
    parseDate := fun c => some c.toStr,
    now := "2025-09-05T00:00:00.000Z" }

/-- A row of the downloadable template, used to instantiate theorems. -/
def sampleRow : Row :=
  ⟨some (.str "John Doe"), some (.str "SRN001"), some (.str "10"),
   some (.str "A"), some (.str "2005-05-15")⟩

/-- A persisted record with every exported field nonempty. -/
def sampleStudent : Student :=
  { school_id := "S", student_name := "John Doe", srn_no := "SRN001",
    class_label := "10", section_label := "A", date_of_birth := "2005-05-15",
    registration_date := "2025-09-05T00:00:00.000Z" }

/-- A template row whose SRN No key is absent. -/
def noSrnRow : Row :=
  ⟨some (.str "John Doe"), none, some (.str "10"), some (.str "A"),
   some (.str "2005-05-15")⟩

/-- An environment whose uniqueness SELECT always errors. -/
def envLookupFail : Env := { envOK with lookupError := fun _ => true }

/-- The duplicate-identifier error messages the loop produces for a run of
consecutive rows starting at 0-based index i, in the code's exact format. -/
def dupMessages : Nat → List Student → List String
  | _, [] => []
  | i, s :: rest =>
    ("Row " ++ toString (i+1) ++ ": SRN " ++ s.srn_no ++ " already exists") ::
      dupMessages (i+1) rest

/-- A persisted record whose student_name is the empty string. -/
def emptyNameStudent : Student :=
  { school_id := "S", student_name := "", srn_no := "SRN001",
    class_label := "10", section_label := "A", date_of_birth := "2005-05-15",
    registration_date := "R" }

/-- A valid template row whose SRN carries a leading space. -/
def paddedSrnRow : Row :=
  ⟨some (.str "John Doe"), some (.str " SRN001"), some (.str "10"),
   some (.str "A"), some (.str "2005-05-15")⟩

/-- The record the importer persists for paddedSrnRow under school S in the
benign environment: the stored srn_no is the trimmed "SRN001". -/
def importedPadded : Student :=
  { school_id := "S", student_name := "John Doe", srn_no := "SRN001",
    class_label := "10", section_label := "A", date_of_birth := "2005-05-15",
    registration_date := "2025-09-05T00:00:00.000Z" }

/-- The header labels of the school dashboard export, in column order. -/
def SCHOOL_EXPORT_HEADERS : List String :=
  ["Student Name", "SRN No", "Class", "Section", "Date of Birth", "School",
   "Block", "Registration Date", "Photo Filename"]

theorem processRow_success_failed (school : String) (env : Env) (i : Nat)
    (st : ImportState) (row : Row) :
    (processRow school env i st row).success + (processRow school env i st row).failed =
      st.success + st.failed + 1 := by
  unfold processRow
  dsimp only
  repeat' split
  all_goals simp_arith

theorem importLoop_success_failed (school : String) (env : Env) (rows : List Row) :
    ∀ (i : Nat) (st : ImportState),
      (importLoop school env i st rows).success + (importLoop school env i st rows).failed =
        st.success + st.failed + rows.length := by
  induction rows with
  | nil => intro i st; simp [importLoop]
  | cons r rs ih =>
    intro i st
    simp only [importLoop, List.length_cons]
    rw [ih]
    have := processRow_success_failed school env i st r
    omega

theorem importLoop_append (school : String) (env : Env) (xs ys : List Row) :
    ∀ (i : Nat) (st : ImportState),
      importLoop school env i st (xs ++ ys) =
        importLoop school env (i + xs.length) (importLoop school env i st xs) ys := by
  induction xs with
  | nil => intro i st; simp [importLoop]
  | cons x xs ih =>
    intro i st
    simp only [List.cons_append, List.append_eq, importLoop, List.length_cons]
    rw [ih]
    have h : i + 1 + xs.length = i + (xs.length + 1) := by omega
    rw [h]

/-- Claim C1: for every import run over a loaded file (a selected school and a
nonempty row set), the returned Import Outcome satisfies
successCount + failureCount = totalRows, where totalRows is the number of
parsed data rows; each iteration of the loop increments exactly one of the
two counters exactly once. -/
theorem importOutcome_counts (school : String) (env : Env) (user : Option String)
    (filename : Option String) (store : List Student) (logs : List LogEntry)
    (importData : List Row) (hs : school ≠ "") (hd : importData ≠ []) :
    ∃ out : RunResult,
      importStudents school env user filename store logs importData = some out ∧
      out.results.total = importData.length ∧
      out.results.success + out.results.failed = out.results.total ∧
      ∀ (i : Nat) (st : ImportState) (r : Row),
        (processRow school env i st r).success + (processRow school env i st r).failed =
          st.success + st.failed + 1 := by
  have hbeq : (school == "") = false := by
    simp [hs]
  match importData, hd with
  | r :: rs, _ =>
    simp only [importStudents, hbeq, Bool.false_eq_true, if_false, List.isEmpty_cons]
    refine ⟨_, rfl, rfl, ?_, ?_⟩
    · have := importLoop_success_failed school env (r :: rs) 0 ⟨store, 0, 0, []⟩
      simpa using this
    · intro i st row
      exact processRow_success_failed school env i st row

theorem importOutcome_counts_witness :
    ∃ out : RunResult,
      importStudents "S" envOK (some "u") (some "f.xlsx") [] [] [sampleRow] = some out ∧
      out.results.total = [sampleRow].length ∧
      out.results.success + out.results.failed = out.results.total ∧
      ∀ (i : Nat) (st : ImportState) (r : Row),
        (processRow "S" envOK i st r).success + (processRow "S" envOK i st r).failed =
          st.success + st.failed + 1 :=
  importOutcome_counts "S" envOK (some "u") (some "f.xlsx") [] [] [sampleRow]
    (by decide) (by decide)

/-- Claim C7: no per-row failure aborts the batch — the loop over any split
xs ++ ys always goes on to process ys from the state xs left, whatever the
rows of xs did — and the run is rejected wholesale only for a hard failure to
load the file (empty sheet or missing header), which leaves the students and
log tables untouched, before any write. -/
theorem importBatch_noRowAbort :
    (∀ (school : String) (env : Env) (i : Nat) (st : ImportState) (xs ys : List Row),
        importLoop school env i st (xs ++ ys) =
          importLoop school env (i + xs.length) (importLoop school env i st xs) ys) ∧
    (∀ (school : String) (env : Env) (user : Option String) (filename : Option String)
        (store : List Student) (logs : List LogEntry) (jsonData : List Row)
        (e : LoadError), loadFile jsonData = .error e →
        processFile school env user filename store logs jsonData = ((store, logs), none)) := by
  constructor
  · intro school env i st xs ys
    exact importLoop_append school env xs ys i st
  · intro school env user filename store logs jsonData e he
    simp [processFile, he]

theorem importBatch_noRowAbort_witness :
    importLoop "S" envOK 0 ⟨[], 0, 0, []⟩ ([Row.mk none none none none none] ++ [sampleRow]) =
      importLoop "S" envOK (0 + [Row.mk none none none none none].length)
        (importLoop "S" envOK 0 ⟨[], 0, 0, []⟩ [Row.mk none none none none none])
        [sampleRow] ∧
    processFile "S" envOK (some "u") (some "f.xlsx") [] [] [] = (([], []), none) :=
  ⟨importBatch_noRowAbort.1 "S" envOK 0 ⟨[], 0, 0, []⟩
      [Row.mk none none none none none] [sampleRow],
   importBatch_noRowAbort.2 "S" envOK (some "u") (some "f.xlsx") [] [] []
      LoadError.emptyFile rfl⟩

/-- Claim C9: a workbook whose first sheet parses to zero data rows is
rejected with the empty-file error, the pipeline leaves the students and log
tables untouched and produces no outcome, and the import run itself refuses
an empty row set, so no run ever starts with totalRows = 0. -/
theorem emptySheet_rejected :
    loadFile [] = .error .emptyFile ∧
    (∀ (school : String) (env : Env) (user : Option String) (filename : Option String)
        (store : List Student) (logs : List LogEntry),
        processFile school env user filename store logs [] = ((store, logs), none)) ∧
    (∀ (school : String) (env : Env) (user : Option String) (filename : Option String)
        (store : List Student) (logs : List LogEntry),
        importStudents school env user filename store logs [] = none) := by
  refine ⟨rfl, ?_, ?_⟩
  · intro school env user filename store logs
    rfl
  · intro school env user filename store logs
    unfold importStudents
    split
    · rfl
    · simp

/-- Claim C2: a file whose header set misses a required column — so that no
row object carries that key — is rejected wholesale by handleFileSelect
before any row is processed: the missing column is reported, no row set is
loaded, and the pipeline performs zero student inserts. -/
theorem missingHeader_rejectsFile (school : String) (env : Env)
    (user : Option String) (filename : Option String) (store : List Student)
    (logs : List LogEntry) (first : Row) (rest : List Row) (c : String)
    (hc : c ∈ REQUIRED) (hmiss : ∀ r ∈ first :: rest, r.hasColumn c = false) :
    c ∈ missingColumnsOf first ∧
    loadFile (first :: rest) = .error (.missingColumns (missingColumnsOf first)) ∧
    processFile school env user filename store logs (first :: rest) =
      ((store, logs), none) := by
  have hmem : c ∈ missingColumnsOf first := by
    have h1 := hmiss first (List.mem_cons_self first rest)
    simp [missingColumnsOf, List.mem_filter, h1, hc]
  have hne : missingColumnsOf first ≠ [] := List.ne_nil_of_mem hmem
  have hempty : (missingColumnsOf first).isEmpty = false := by
    cases h : missingColumnsOf first with
    | nil => exact absurd h hne
    | cons a as => rfl
  have hload : loadFile (first :: rest) =
      .error (.missingColumns (missingColumnsOf first)) := by
    simp [loadFile, hempty]
  exact ⟨hmem, hload, by simp [processFile, hload]⟩

theorem missingHeader_rejectsFile_witness :
    "SRN No" ∈ missingColumnsOf noSrnRow ∧
    loadFile [noSrnRow] = .error (.missingColumns (missingColumnsOf noSrnRow)) ∧
    processFile "S" envOK (some "u") (some "f.xlsx") [] [] [noSrnRow] =
      (([], []), none) :=
  missingHeader_rejectsFile "S" envOK (some "u") (some "f.xlsx") [] [] noSrnRow []
    "SRN No" (by decide) (by decide)

/-- Claim C8: an import run that processes its rows to the end, invoked by a
signed-in user, persists exactly one summary log entry after the last row,
carrying the invoking user id, the resolved source filename, the
total/success/failure counts of the outcome, and the newline-joined error
strings (null when no error occurred). -/
theorem importRun_logsSummary (school : String) (env : Env) (uid : String)
    (filename : Option String) (store : List Student) (logs : List LogEntry)
    (importData : List Row) (hs : school ≠ "") (hd : importData ≠ []) :
    ∃ (out : RunResult) (e : LogEntry),
      importStudents school env (some uid) filename store logs importData = some out ∧
      out.logs = logs ++ [e] ∧
      e.user_id = uid ∧
      e.filename = resolveFilename filename ∧
      e.total_records = out.results.total ∧
      e.successful_records = out.results.success ∧
      e.failed_records = out.results.failed ∧
      e.errors = (if out.results.errors.isEmpty then none
                  else some (String.intercalate "\n" out.results.errors)) := by
  have hbeq : (school == "") = false := by simp [hs]
  match importData, hd with
  | r :: rs, _ =>
    simp only [importStudents, hbeq, Bool.false_eq_true, if_false, List.isEmpty_cons]
    exact ⟨_, _, rfl, rfl, rfl, rfl, rfl, rfl, rfl, rfl⟩

theorem importRun_logsSummary_witness :
    ∃ (out : RunResult) (e : LogEntry),
      importStudents "S" envOK (some "u") (some "f.xlsx") [] [] [sampleRow] = some out ∧
      out.logs = [] ++ [e] ∧
      e.user_id = "u" ∧
      e.filename = resolveFilename (some "f.xlsx") ∧
      e.total_records = out.results.total ∧
      e.successful_records = out.results.success ∧
      e.failed_records = out.results.failed ∧
      e.errors = (if out.results.errors.isEmpty then none
                  else some (String.intercalate "\n" out.results.errors)) :=
  importRun_logsSummary "S" envOK "u" (some "f.xlsx") [] [] [sampleRow]
    (by decide) (by decide)

/-- Claim C10: when the uniqueness SELECT of a row errors instead of
answering, the importer records exactly the duplicate-identifier RowError it
records for a genuine duplicate — the identical "already exists" message —
and performs no insert for that row: the backend read failure is never
surfaced as a distinct error kind. -/
theorem lookupFailure_reportedAsDuplicate (school : String) (env env2 : Env)
    (i : Nat) (st st2 : ImportState) (row : Row)
    (hreq : requiredPresent row = true) (herr : env.lookupError i = true)
    (h2 : env2.lookupError i = false)
    (hany : (st2.store.any fun s =>
        s.srn_no == cellStr row.srnNo && s.school_id == school) = true) :
    processRow school env i st row =
      { st with failed := st.failed + 1,
                errors := st.errors ++
                  ["Row " ++ toString (i+1) ++ ": SRN " ++ cellStr row.srnNo ++
                    " already exists"] } ∧
    processRow school env2 i st2 row =
      { st2 with failed := st2.failed + 1,
                 errors := st2.errors ++
                   ["Row " ++ toString (i+1) ++ ": SRN " ++ cellStr row.srnNo ++
                     " already exists"] } := by
  constructor
  · unfold processRow
    simp [hreq, validateSRN, herr]
  · unfold processRow
    simp [hreq, validateSRN, h2, hany]

theorem lookupFailure_reportedAsDuplicate_witness :
    processRow "S" envLookupFail 0 ⟨[], 0, 0, []⟩ sampleRow =
      { store := [], success := 0, failed := 0 + 1,
        errors := [] ++ ["Row " ++ toString (0+1) ++ ": SRN " ++
          cellStr sampleRow.srnNo ++ " already exists"] } ∧
    processRow "S" envOK 0 ⟨[sampleStudent], 0, 0, []⟩ sampleRow =
      { store := [sampleStudent], success := 0, failed := 0 + 1,
        errors := [] ++ ["Row " ++ toString (0+1) ++ ": SRN " ++
          cellStr sampleRow.srnNo ++ " already exists"] } :=
  lookupFailure_reportedAsDuplicate "S" envLookupFail envOK 0
    ⟨[], 0, 0, []⟩ ⟨[sampleStudent], 0, 0, []⟩ sampleRow
    (by decide) rfl rfl (by decide)

theorem processRow_dup (school : String) (env : Env) (i : Nat)
    (st : ImportState) (row : Row) (hreq : requiredPresent row = true)
    (hv : validateSRN st.store (env.lookupError i) (cellStr row.srnNo) school = false) :
    processRow school env i st row =
      { st with failed := st.failed + 1,
                errors := st.errors ++
                  ["Row " ++ toString (i+1) ++ ": SRN " ++ cellStr row.srnNo ++
                    " already exists"] } := by
  unfold processRow
  simp [hreq, hv]

theorem processRow_insert (school : String) (env : Env) (i : Nat)
    (st : ImportState) (row : Row) (d : String)
    (hreq : requiredPresent row = true)
    (hv : validateSRN st.store (env.lookupError i) (cellStr row.srnNo) school = true)
    (hd : env.parseDate (row.dateOfBirth.getD (Cell.str "")) = some d)
    (hi : env.insertError i = none)
    (hcon : (st.store.any fun t =>
        t.srn_no == jsTrim (cellStr row.srnNo) && t.school_id == school) = false) :
    processRow school env i st row =
      { st with success := st.success + 1,
                store := st.store ++
                  [{ school_id := school,
                     student_name := jsTrim (cellStr row.studentName),
                     srn_no := jsTrim (cellStr row.srnNo),
                     class_label := jsTrim (cellStr row.classLabel),
                     section_label := jsTrim (cellStr row.sectionLabel),
                     date_of_birth := d,
                     registration_date := env.now }] } := by
  unfold processRow
  simp [hreq, hv, hd, insertStudent, hcon, hi]

theorem validateSRN_false_of_mem (school : String) (store : List Student)
    (b : Bool) (s : Student) (hm : s ∈ store) (hs : s.school_id = school) :
    validateSRN store b s.srn_no school = false := by
  cases b with
  | true => rfl
  | false =>
    have hany : (store.any fun t => t.srn_no == s.srn_no && t.school_id == school) = true :=
      List.any_eq_true.mpr ⟨s, hm, by simp [hs]⟩
    simp [validateSRN, hany]

theorem requiredPresent_studentToRow (s : Student)
    (h1 : s.student_name ≠ "") (h2 : s.srn_no ≠ "") (h3 : s.class_label ≠ "")
    (h4 : s.section_label ≠ "") (h5 : s.date_of_birth ≠ "") :
    requiredPresent (studentToRow s) = true := by
  simp [requiredPresent, studentToRow, present, Cell.truthy, bne_iff_ne,
    h1, h2, h3, h4, h5]

theorem importLoop_reimport (school : String) (env : Env) (store : List Student) :
    ∀ es : List Student,
      (∀ s ∈ es, s ∈ store ∧ s.school_id = school ∧ s.student_name ≠ "" ∧
        s.srn_no ≠ "" ∧ s.class_label ≠ "" ∧ s.section_label ≠ "" ∧
        s.date_of_birth ≠ "") →
      ∀ (i succ fail : Nat) (errs : List String),
        importLoop school env i ⟨store, succ, fail, errs⟩ (exportRows es) =
          ⟨store, succ, fail + es.length, errs ++ dupMessages i es⟩ := by
  intro es
  induction es with
  | nil => intro _ i succ fail errs; simp [exportRows, importLoop, dupMessages]
  | cons s rest ih =>
    intro hes i succ fail errs
    obtain ⟨hm, hsch, h1, h2, h3, h4, h5⟩ := hes s (by simp)
    have hreq := requiredPresent_studentToRow s h1 h2 h3 h4 h5
    have hv : validateSRN store (env.lookupError i)
        (cellStr (studentToRow s).srnNo) school = false := by
      have hcell : cellStr (studentToRow s).srnNo = s.srn_no := rfl
      rw [hcell]
      exact validateSRN_false_of_mem school store (env.lookupError i) s hm hsch
    simp only [exportRows, List.map_cons, importLoop]
    rw [processRow_dup school env i ⟨store, succ, fail, errs⟩ (studentToRow s) hreq hv]
    have ihr := ih (fun t ht => hes t (by simp [ht])) (i+1) succ (fail+1)
      (errs ++ ["Row " ++ toString (i+1) ++ ": SRN " ++
        cellStr (studentToRow s).srnNo ++ " already exists"])
    simp only [exportRows] at ihr
    rw [ihr]
    simp only [List.length_cons, dupMessages, ImportState.mk.injEq, true_and,
      List.append_assoc, List.singleton_append, studentToRow, cellStr, Cell.toStr,
      and_true]
    omega

/-- Claim C3 (amended): exporting the already-persisted records of a school,
all of whose template fields are nonempty, and re-importing the exported rows
into the same school is idempotent: every row is recorded as a
duplicate-identifier RowError, successCount = 0, and the students table is
unchanged — whatever the backend environment does.  (Without the
nonemptiness condition a record with an empty field re-imports as a
missing-required-fields RowError instead, though still with zero inserts.) -/
theorem reimportExport_idempotent (school : String) (env : Env)
    (store es : List Student)
    (hes : ∀ s ∈ es, s ∈ store ∧ s.school_id = school ∧ s.student_name ≠ "" ∧
      s.srn_no ≠ "" ∧ s.class_label ≠ "" ∧ s.section_label ≠ "" ∧
      s.date_of_birth ≠ "") :
    runLoop school env store (exportRows es) =
      ⟨store, 0, es.length, dupMessages 0 es⟩ := by
  have h := importLoop_reimport school env store es hes 0 0 0 []
  simpa [runLoop] using h

theorem reimportExport_idempotent_witness :
    runLoop "S" envOK [sampleStudent] (exportRows [sampleStudent]) =
      ⟨[sampleStudent], 0, [sampleStudent].length, dupMessages 0 [sampleStudent]⟩ :=
  reimportExport_idempotent "S" envOK [sampleStudent] [sampleStudent] (by decide)

/-- Claim C3 counterexample: a persisted record with an empty student_name,
exported and re-imported into its own school, is rejected as
"Missing required fields", not as a duplicate-identifier RowError, so the
claim's "every row is recorded as a duplicate-identifier RowError" fails
(successCount is still 0 and the store is still unchanged). -/
theorem reimportExport_cex :
    runLoop "S" envOK [emptyNameStudent] (exportRows [emptyNameStudent]) =
      ⟨[emptyNameStudent], 0, 1, ["Row 1: Missing required fields"]⟩ ∧
    (runLoop "S" envOK [emptyNameStudent] (exportRows [emptyNameStudent])).errors ≠
      ["Row 1: SRN SRN001 already exists"] := by
  decide

theorem uniqueStore_append (l : List Student) (a : Student) :
    uniqueStore (l ++ [a]) =
      (uniqueStore l &&
        !(l.any fun b => a.srn_no == b.srn_no && a.school_id == b.school_id)) := by
  induction l with
  | nil => simp [uniqueStore]
  | cons x l ih =>
    simp only [List.cons_append, List.append_eq, uniqueStore, List.any_append,
      List.any_cons, List.any_nil, Bool.or_false, ih]
    cases l.any fun t => t.srn_no == x.srn_no && t.school_id == x.school_id <;>
      cases uniqueStore l <;>
      cases a.srn_no == x.srn_no && a.school_id == x.school_id <;>
      cases l.any fun b => a.srn_no == b.srn_no && a.school_id == b.school_id <;>
      rfl

theorem processRow_preserves_unique (school : String) (env : Env) (i : Nat)
    (st : ImportState) (row : Row)
    (hu : uniqueStore st.store = true) :
    uniqueStore (processRow school env i st row).store = true := by
  by_cases hreq : requiredPresent row = true
  · by_cases hv : validateSRN st.store (env.lookupError i) (cellStr row.srnNo) school = true
    · cases hd : env.parseDate (row.dateOfBirth.getD (Cell.str "")) with
      | none =>
        unfold processRow
        simpa [hreq, hv, hd] using hu
      | some d =>
        cases hcon : st.store.any fun t =>
            t.srn_no == jsTrim (cellStr row.srnNo) && t.school_id == school with
        | true =>
          unfold processRow
          simpa [hreq, hv, hd, insertStudent, hcon] using hu
        | false =>
          cases hi : env.insertError i with
          | some m =>
            unfold processRow
            simpa [hreq, hv, hd, insertStudent, hcon, hi] using hu
          | none =>
            rw [processRow_insert school env i st row d hreq hv hd hi hcon]
            dsimp only
            rw [uniqueStore_append]
            simp only [Bool.and_eq_true, Bool.not_eq_true']
            refine ⟨hu, ?_⟩
            cases hx : st.store.any fun b =>
                jsTrim (cellStr row.srnNo) == b.srn_no && school == b.school_id with
            | false => rfl
            | true =>
              obtain ⟨b, hb, hpb⟩ := List.any_eq_true.mp hx
              simp only [Bool.and_eq_true, beq_iff_eq] at hpb
              have hmatch : (st.store.any fun t =>
                  t.srn_no == jsTrim (cellStr row.srnNo) && t.school_id == school) = true :=
                List.any_eq_true.mpr ⟨b, hb, by simp [← hpb.1, ← hpb.2]⟩
              rw [hmatch] at hcon
              exact absurd hcon (by simp)
    · have hv' : validateSRN st.store (env.lookupError i) (cellStr row.srnNo) school = false := by
        revert hv
        cases validateSRN st.store (env.lookupError i) (cellStr row.srnNo) school <;> simp
      rw [processRow_dup school env i st row hreq hv']
      simpa using hu
  · have hreq' : requiredPresent row = false := by
      revert hreq
      cases requiredPresent row <;> simp
    unfold processRow
    simpa [hreq'] using hu

theorem importLoop_preserves_unique (school : String) (env : Env) :
    ∀ (rows : List Row) (i : Nat) (st : ImportState),
      uniqueStore st.store = true →
      uniqueStore (importLoop school env i st rows).store = true := by
  intro rows
  induction rows with
  | nil => intro i st hu; simpa [importLoop] using hu
  | cons r rs ih =>
    intro i st hu
    simp only [importLoop]
    exact ih (i+1) _ (processRow_preserves_unique school env i st r hu)

/-- Claim C4: when srn_no is unique within each owning school, an import run
preserves the invariant, for every backend environment and row set: a row
either fails a pre-insert check, or its insert is blocked — by the per-row
lookup when the raw SRN cell matches an existing record, and otherwise by
the students table's UNIQUE(school_id, srn_no) constraint, which rejects any
insert that would create a second record with the same srn_no under the same
owning school. -/
theorem importRun_preservesUniqueness (school : String) (env : Env)
    (store : List Student) (rows : List Row)
    (hu : uniqueStore store = true) :
    uniqueStore (runLoop school env store rows).store = true :=
  importLoop_preserves_unique school env rows 0 ⟨store, 0, 0, []⟩ hu

theorem importRun_preservesUniqueness_witness :
    uniqueStore (runLoop "S" envOK [sampleStudent] [sampleRow, paddedSrnRow]).store = true :=
  importRun_preservesUniqueness "S" envOK [sampleStudent] [sampleRow, paddedSrnRow]
    (by decide)

/-- Claim C5 (amended): a 2-row file whose rows are otherwise valid (required
fields truthy, row 1's date parses, row 1's insert is not externally
rejected, both lookups answer) and whose rows carry the same external id,
equal to its own trimmed form, imported against a store holding no record
with that id under the target school, inserts row 1 and records row 2 as a
duplicate RowError: row 1's insert is in the store before row 2's uniqueness
check runs.  (When the shared SRN cell carries surrounding whitespace, row
2's raw-value lookup misses the trimmed value row 1 stored; row 2 then fails
at the insert itself, rejected by the UNIQUE(school_id, srn_no) constraint
with the backend's message rather than the duplicate-identifier RowError.) -/
theorem duplicateRows_sequential (school : String) (env : Env)
    (store : List Student) (r1 r2 : Row) (key d : String)
    (hk1 : cellStr r1.srnNo = key) (hk2 : cellStr r2.srnNo = key)
    (htrim : jsTrim key = key)
    (hp1 : requiredPresent r1 = true) (hp2 : requiredPresent r2 = true)
    (hl0 : env.lookupError 0 = false) (hl1 : env.lookupError 1 = false)
    (hi0 : env.insertError 0 = none)
    (hd1 : env.parseDate (r1.dateOfBirth.getD (Cell.str "")) = some d)
    (hstore : ∀ s ∈ store, ¬(s.srn_no = key ∧ s.school_id = school)) :
    runLoop school env store [r1, r2] =
      ⟨store ++ [{ school_id := school,
                   student_name := jsTrim (cellStr r1.studentName),
                   srn_no := key,
                   class_label := jsTrim (cellStr r1.classLabel),
                   section_label := jsTrim (cellStr r1.sectionLabel),
                   date_of_birth := d,
                   registration_date := env.now }],
       1, 1,
       ["Row " ++ toString (1+1) ++ ": SRN " ++ key ++ " already exists"]⟩ := by
  have hkt : jsTrim (cellStr r1.srnNo) = key := by rw [hk1, htrim]
  have hany0 : (store.any fun s => s.srn_no == key && s.school_id == school) = false := by
    cases hx : store.any fun s => s.srn_no == key && s.school_id == school with
    | false => rfl
    | true =>
      obtain ⟨s, hm, hp⟩ := List.any_eq_true.mp hx
      simp only [Bool.and_eq_true, beq_iff_eq] at hp
      exact absurd hp (hstore s hm)
  have hv1 : validateSRN store (env.lookupError 0) (cellStr r1.srnNo) school = true := by
    rw [hk1, hl0]
    simp [validateSRN, hany0]
  have hcon1 : (store.any fun t =>
      t.srn_no == jsTrim (cellStr r1.srnNo) && t.school_id == school) = false := by
    rw [hkt]
    exact hany0
  unfold runLoop
  simp only [importLoop, Nat.zero_add]
  rw [processRow_insert school env 0 ⟨store, 0, 0, []⟩ r1 d hp1 hv1 hd1 hi0 hcon1]
  have hv2 : validateSRN
      (store ++ [{ school_id := school,
                   student_name := jsTrim (cellStr r1.studentName),
                   srn_no := jsTrim (cellStr r1.srnNo),
                   class_label := jsTrim (cellStr r1.classLabel),
                   section_label := jsTrim (cellStr r1.sectionLabel),
                   date_of_birth := d,
                   registration_date := env.now }])
      (env.lookupError 1) (cellStr r2.srnNo) school = false := by
    rw [hk2, hl1]
    simp [validateSRN, List.any_append, hkt]
  rw [processRow_dup school env 1 _ r2 hp2 hv2]
  simp [hk2, hkt]

theorem duplicateRows_sequential_witness :
    runLoop "S" envOK [] [sampleRow, sampleRow] =
      ⟨[] ++ [{ school_id := "S",
                student_name := jsTrim (cellStr sampleRow.studentName),
                srn_no := "SRN001",
                class_label := jsTrim (cellStr sampleRow.classLabel),
                section_label := jsTrim (cellStr sampleRow.sectionLabel),
                date_of_birth := "2005-05-15",
                registration_date := envOK.now }],
       1, 1,
       ["Row " ++ toString (1+1) ++ ": SRN " ++ "SRN001" ++ " already exists"]⟩ :=
  duplicateRows_sequential "S" envOK [] sampleRow sampleRow "SRN001" "2005-05-15"
    rfl rfl (by decide) (by decide) (by decide) rfl rfl rfl rfl (by simp)

/-- Claim C5 counterexample: two identical, fully valid rows sharing the SRN
cell " SRN001" (a leading space), against an empty store, in the benign
environment.  Row 2's uniqueness lookup uses the raw cell " SRN001", misses
the trimmed "SRN001" row 1 stored, and the check passes; row 2 then fails at
the insert, rejected by the UNIQUE(school_id, srn_no) constraint, so the
recorded error is the backend's constraint-violation message — not the
duplicate-identifier "already exists" RowError the claim asserts, and not
produced by the uniqueness check the claim credits. -/
theorem duplicateRows_cex :
    runLoop "S" envOK [] [paddedSrnRow, paddedSrnRow] =
      ⟨[importedPadded], 1, 1, ["Row 2: " ++ UNIQUE_VIOLATION_MSG]⟩ ∧
    (runLoop "S" envOK [] [paddedSrnRow, paddedSrnRow]).errors ≠
      ["Row 2: SRN  SRN001 already exists"] := by
  decide

/-- Claim C6 (amended): exporting the empty record collection produces a
workbook with the single sheet "Students" holding zero rows — no data rows
and no header row either, since json_to_sheet derives the header from the
keys of the data rows; for any nonempty collection the header row does
appear, as the first sheet row. -/
theorem exportEmpty_emptySheet (schoolName blockName : String)
    (fmtDate : String → String) (today : String) :
    exportToExcel schoolName blockName fmtDate today [] =
      ⟨[("Students", [])], schoolName ++ "_students_" ++ today ++ ".xlsx"⟩ ∧
    (∀ (schoolOf blockOf districtOf stateOf : Student → String),
      exportToExcelAdmin schoolOf blockOf districtOf stateOf fmtDate today [] =
        ⟨[("Students", [])], "students_export_" ++ today ++ ".xlsx"⟩) ∧
    (∀ (s : Student) (ss : List Student),
      (exportToExcel schoolName blockName fmtDate today (s :: ss)).sheets =
        [("Students", SCHOOL_EXPORT_HEADERS ::
          (s :: ss).map fun t =>
            (exportRecordSchool schoolName blockName fmtDate t).map Prod.snd)]) := by
  refine ⟨rfl, fun _ _ _ _ => rfl, ?_⟩
  intro s ss
  simp [exportToExcel, json_to_sheet, exportRecordSchool, SCHOOL_EXPORT_HEADERS]

/-- Claim C6 counterexample: the workbook exported for the empty collection
has "Students" as its single sheet, but that sheet is empty — it does not
consist of exactly the header row, which is what the claim asserts. -/
theorem exportEmpty_cex :
    (exportToExcel "Greenfield" "B1" (fun s => s) "2025-09-05" []).sheets =
      [("Students", [])] ∧
    [("Students", ([] : List (List String)))] ≠
      [("Students", [SCHOOL_EXPORT_HEADERS])] := by
  exact ⟨rfl, by decide⟩
